import Mathlib

/-!
Verification of the healthcare translation pipeline (`app.py`).

The pipeline is a straight-line sequence of stages: audio normalization,
transcription (upload, job creation, status polling against a remote
speech-to-text API), LLM-based terminology refinement, translation, and
speech synthesis. We embed each function of `app.py` as a Lean function
that returns its Python return value together with the list of observable
events it performs (HTTP requests, UI messages, file operations). External
library behavior (audio decoding, the chat-completion call, pydantic
validation, the translation provider) is passed in as environment data,
since it is not code of this repository; the control flow around it is
translated from `app.py` directly. The unbounded polling loop is embedded
with explicit fuel counting loop iterations: exhausting every fuel bound
models non-termination.
-/

/-- A JSON value as far as this program inspects them: null or a string.
(The program only ever reads string-or-null fields from response bodies.) -/
inductive JVal where
  | null
  | str (s : String)
  deriving DecidableEq, Repr

/-- A JSON object body, as an association list of fields. -/
def JBody := List (String × JVal)

/-- Python `dict.get(k)`: `none` when the field is missing. -/
def jget (body : JBody) (k : String) : Option JVal :=
  match body.find? (fun p => p.1 = k) with
  | some p => some p.2
  | none => none

/-- Python truthiness of a value obtained by `.get`: `None` (missing field or
JSON null) and the empty string are falsy; any other string is truthy. -/
def pyTruthy : Option JVal → Bool
  | some (JVal.str s) => if s = "" then false else true
  | _ => false

/-- Python truthiness of an optional string (`if transcription:`). -/
def pyTruthyStr : Option String → Bool
  | some s => if s = "" then false else true
  | none => false

/-- The string content of a JSON value known to be truthy (used where Python
interpolates the value into an f-string). -/
def jstr : Option JVal → String
  | some (JVal.str s) => s
  | _ => ""

/-- `.get("text")` as returned to Python: a missing field or JSON null is
Python `None`; a string (empty included) is returned as-is. -/
def jtext : Option JVal → Option String
  | some (JVal.str s) => some s
  | _ => none

/-- Pydantic model for the refinement schema: `{ refined_transcription: string }`. -/
structure RefinedTranscription where
  refined_transcription : String
  deriving DecidableEq, Repr

/-- Observable events of a pipeline run: HTTP requests, Streamlit UI output,
thread sleeps, and file-system operations. -/
inductive Event where
  | httpPost (url : String)
  | httpGet (url : String)
  | sleep
  | stError (msg : String)
  | stInfo (msg : String)
  | stWrite (msg : String)
  | stWrite2 (label : String) (payload : String)
  | stJson (r : RefinedTranscription)
  | stAudio (path : String)
  | fileWrite (path : String)
  | fileRead (path : String)
  | fileRemove (path : String)
  | audioExport (path : String) (fmt : String)
  | ttsSave (path : String)
  deriving DecidableEq, Repr

/-- An HTTP response: status code and JSON body. -/
structure HttpResponse where
  statusCode : Nat
  body : JBody

/-- The remote transcription service as seen by one run of
`transcribe_audio`: the upload response, the job-creation response, and the
response to the i-th status poll. -/
structure TranscribeEnv where
  uploadResponse : HttpResponse
  createResponse : HttpResponse
  pollResponses : Nat → HttpResponse

/-- Result of running a fueled computation: it returned a Python value, or
the fuel ran out before it returned (modelling non-termination). -/
inductive Outcome where
  | ret (v : Option String)
  | diverge
  deriving DecidableEq, Repr

def ASSEMBLYAI_ENDPOINT : String := "https://api.assemblyai.com/v2/transcript"

/-- The `while transcript_status not in ["completed", "failed"]` loop of
`transcribe_audio` (app.py lines 69-83), with fuel bounding the number of
iterations; `i` indexes the status-poll responses. Each iteration issues a
GET; non-200 reports the status code and returns `None`; `completed` returns
the `text` field; `failed` reports and returns `None`; any other status
(e.g. `processing`) loops again. The source contains no sleep call. -/
def pollLoop (env : TranscribeEnv) (tid : String) : Nat → Nat → Outcome × List Event
  | _, 0 => (Outcome.diverge, [])
  | i, fuel+1 =>
    let r := env.pollResponses i
    let ev0 := Event.httpGet (ASSEMBLYAI_ENDPOINT ++ "/" ++ tid)
    if r.statusCode ≠ 200 then
      (Outcome.ret none,
       [ev0, Event.stError ("Failed to fetch transcription result. Status: " ++ toString r.statusCode)])
    else
      let status := jget r.body "status"
      if status = some (JVal.str "completed") then
        (Outcome.ret (jtext (jget r.body "text")), [ev0])
      else if status = some (JVal.str "failed") then
        (Outcome.ret none, [ev0, Event.stError "Transcription failed."])
      else
        let rest := pollLoop env tid (i+1) fuel
        (rest.1, ev0 :: rest.2)

/-- `transcribe_audio` (app.py lines 42-83): upload the audio, create a
transcription job, then poll. Every early exit reports an error and returns
`None`. -/
def transcribe_audio (env : TranscribeEnv) (fuel : Nat) : Outcome × List Event :=
  let up := env.uploadResponse
  let e1 := Event.httpPost "https://api.assemblyai.com/v2/upload"
  if up.statusCode ≠ 200 then
    (Outcome.ret none,
     [e1, Event.stError ("Failed to upload audio. Status: " ++ toString up.statusCode)])
  else
    let audio_url := jget up.body "upload_url"
    if pyTruthy audio_url = false then
      (Outcome.ret none, [e1, Event.stError "Upload URL not received from AssemblyAI."])
    else
      let cr := env.createResponse
      let e2 := Event.httpPost ASSEMBLYAI_ENDPOINT
      if cr.statusCode ≠ 200 then
        (Outcome.ret none,
         [e1, e2, Event.stError ("Failed to request transcription. Status: " ++ toString cr.statusCode)])
      else
        let transcript_id := jget cr.body "id"
        if pyTruthy transcript_id = false then
          (Outcome.ret none, [e1, e2, Event.stError "Transcription ID not received."])
        else
          let rest := pollLoop env (jstr transcript_id) 0 fuel
          (rest.1, e1 :: e2 :: rest.2)

/-- An in-memory audio segment, tracking the attributes `app.py` sets:
channel count, sample rate, and the container format it was exported in. -/
structure AudioSegment where
  channels : Nat
  frame_rate : Nat
  fmt : String
  deriving DecidableEq, Repr

/-- `AudioSegment.set_channels` of pydub. -/
def AudioSegment.set_channels (a : AudioSegment) (n : Nat) : AudioSegment :=
  AudioSegment.mk n a.frame_rate a.fmt

/-- `AudioSegment.set_frame_rate` of pydub. -/
def AudioSegment.set_frame_rate (a : AudioSegment) (r : Nat) : AudioSegment :=
  AudioSegment.mk a.channels r a.fmt

/-- `AudioSegment.export(path, format=fmt)`: the exported file holds the
segment re-containered in the given format. -/
def AudioSegment.export (a : AudioSegment) (fmt : String) : AudioSegment :=
  AudioSegment.mk a.channels a.frame_rate fmt

/-- `preprocess_audio` (app.py lines 28-38): write the raw bytes to
`temp_audio.wav`, decode them (pydub, passed in as `decode`), force mono and
16 kHz, export as WAV to `processed_audio.wav`, and return that file's
content. -/
def preprocess_audio (decode : List Nat → AudioSegment) (audio_data : List Nat) :
    AudioSegment × List Event :=
  let a0 := decode audio_data
  let a1 := a0.set_channels 1
  let a2 := a1.set_frame_rate 16000
  let out := a2.export "wav"
  (out,
   [Event.fileWrite "temp_audio.wav", Event.fileRead "temp_audio.wav",
    Event.audioExport "processed_audio.wav" "wav", Event.fileRead "processed_audio.wav"])

/-- What the Groq chat-completion call does on this run: raise an exception
(with message) or return the raw response content string. -/
inductive GroqOutcome where
  | raises (msg : String)
  | returnsRaw (raw : String)

/-- Environment of `refine_transcription_with_groq`: the chat-completion
call's behavior and pydantic's `model_validate_json` for the schema
`{ refined_transcription: string }` (an external library, passed in). -/
structure RefineEnv where
  chat : GroqOutcome
  validate : String → Except String RefinedTranscription

/-- `refine_transcription_with_groq` (app.py lines 87-122): issue the model
call inside a try block; on success write the raw response to the UI, then
validate it against `RefinedTranscription`. Any exception (from the call or
from validation) is caught, reported with its text, and `None` is returned. -/
def refine_transcription_with_groq (env : RefineEnv) (transcription : String) :
    Option RefinedTranscription × List Event :=
  match env.chat with
  | GroqOutcome.raises e =>
      (none, [Event.stError ("An error occurred during refinement with Groq: " ++ e)])
  | GroqOutcome.returnsRaw raw =>
      let ev0 := Event.stWrite2 "Raw Response from Groq:" raw
      match env.validate raw with
      | Except.error e =>
          (none, [ev0, Event.stError ("An error occurred during refinement with Groq: " ++ e)])
      | Except.ok r => (some r, [ev0])

/-- `translate_text` (app.py lines 127-134): the translation provider either
raises (caught, reported, `None` returned) or yields the translated text. -/
def translate_text (tr : Except String String) (text : String) (target_language : String) :
    Option String × List Event :=
  match tr with
  | Except.error e => (none, [Event.stError ("An error occurred during translation: " ++ e)])
  | Except.ok t => (some t, [])

/-- `text_to_speech` (app.py lines 138-141): gTTS saves `output.mp3` and the
function returns that path. -/
def text_to_speech (text : String) (lang : String) : String × List Event :=
  ("output.mp3", [Event.ttsSave "output.mp3"])

/-- The synthesis-and-playback tail of `main` (app.py lines 189-195), reached
once a translation exists: synthesize mp3, re-encode to `output.wav`, play
it, then delete both files. -/
def synthPart (translation : String) (target_language : String) : List Event :=
  let tts := text_to_speech translation target_language
  Event.stWrite ("**Translation (" ++ target_language ++ "):**") ::
  Event.stWrite translation ::
  Event.stInfo "Converting translation to speech..." ::
  tts.2 ++
  [Event.fileRead "output.mp3",
   Event.audioExport "output.wav" "wav",
   Event.stAudio "output.wav",
   Event.fileRemove "output.mp3",
   Event.fileRemove "output.wav"]

/-- The translation stage of `main` (app.py lines 174-195), reached once
refinement succeeded: show the refined record, translate, and — guarded by
Python truthiness of `if translation:`, so an empty-string translation is
skipped like a failed one — run synthesis; a falsy translation adds nothing
beyond the error (if any) already reported inside `translate_text`. -/
def translatePart (tr : Except String String) (refined : RefinedTranscription)
    (target_language : String) : List Event :=
  let tl := translate_text tr refined.refined_transcription target_language
  Event.stWrite "**Refined Transcription:**" ::
  Event.stJson refined ::
  Event.stInfo "Translating refined transcription..." ::
  tl.2 ++
  (if pyTruthyStr tl.1 = true then
     synthPart (tl.1.getD "") target_language
   else [])

/-- The refinement stage of `main` (app.py lines 168-197), reached once a
truthy transcription exists: show it, refine, and on success continue with
translation; on refinement failure show "Refinement failed.". -/
def refinePart (rEnv : RefineEnv) (tr : Except String String) (tx : String)
    (target_language : String) : List Event :=
  let r := refine_transcription_with_groq rEnv tx
  Event.stWrite "**Original Transcription:**" ::
  Event.stWrite tx ::
  Event.stWrite "**Refined Transcription for Medical Terms through Generative AI:**" ::
  Event.stInfo "Refining transcription with Groq..." ::
  r.2 ++
  (match r.1 with
   | some refined => translatePart tr refined target_language
   | none => [Event.stError "Refinement failed."])

/-- The pipeline body of `main` (app.py lines 161-199) once audio data is
present: preprocess, transcribe, and branch on Python truthiness of the
transcription; a falsy transcription shows "Transcription failed." and stops. -/
def runPipeline (decode : List Nat → AudioSegment) (audio_data : List Nat)
    (tEnv : TranscribeEnv) (rEnv : RefineEnv) (tr : Except String String)
    (target_language : String) (fuel : Nat) : List Event :=
  let p := preprocess_audio decode audio_data
  let t := transcribe_audio tEnv fuel
  Event.stInfo "Processing audio..." ::
  p.2 ++
  Event.stInfo "Transcribing audio..." ::
  t.2 ++
  (match t.1 with
   | Outcome.diverge => []
   | Outcome.ret transcription =>
     if pyTruthyStr transcription = true then
       refinePart rEnv tr (transcription.getD "") target_language
     else
       [Event.stError "Transcription failed."])

/-- Events a `transcribe_audio` run can perform: HTTP requests and error
messages only. -/
def netEvent : Event → Bool
  | Event.httpPost _ => true
  | Event.httpGet _ => true
  | Event.stError _ => true
  | _ => false

/-- Events `refine_transcription_with_groq` and `translate_text` can
perform: UI writes and error messages only. -/
def refineEvent : Event → Bool
  | Event.stWrite2 _ _ => true
  | Event.stError _ => true
  | _ => false

/-- Events `preprocess_audio` performs: local file operations only. -/
def fileEvent : Event → Bool
  | Event.fileWrite _ => true
  | Event.fileRead _ => true
  | Event.audioExport _ _ => true
  | _ => false

/-- Is this event a file deletion? -/
def isRemove : Event → Bool
  | Event.fileRemove _ => true
  | _ => false

/-- Is this event an HTTP GET (a status poll)? -/
def isGet : Event → Bool
  | Event.httpGet _ => true
  | _ => false

/-- Scanner for `sleepBetweenPolls`: the flag records that a poll has been
seen with no sleep after it yet. -/
def sleepBetweenPollsAux : Bool → List Event → Bool
  | _, [] => true
  | pending, Event.httpGet _ :: rest =>
      if pending then false else sleepBetweenPollsAux true rest
  | _, Event.sleep :: rest => sleepBetweenPollsAux false rest
  | pending, _ :: rest => sleepBetweenPollsAux pending rest

/-- Holds of a trace iff every two consecutive status polls (HTTP GETs) have
at least one sleep between them. -/
def sleepBetweenPolls (evs : List Event) : Bool :=
  sleepBetweenPollsAux false evs

/-- Sample service behavior: the upload itself is rejected with HTTP 500. -/
def envUploadFail : TranscribeEnv :=
  TranscribeEnv.mk (HttpResponse.mk 500 []) (HttpResponse.mk 200 [])
    (fun _ => HttpResponse.mk 200 [])

/-- Sample service behavior: upload succeeds, job creation is rejected. -/
def envCreateFail : TranscribeEnv :=
  TranscribeEnv.mk (HttpResponse.mk 200 [("upload_url", JVal.str "u")])
    (HttpResponse.mk 403 []) (fun _ => HttpResponse.mk 200 [])

/-- Sample service behavior: upload and creation succeed, every poll is
rejected with HTTP 502. -/
def envPollHttpFail : TranscribeEnv :=
  TranscribeEnv.mk (HttpResponse.mk 200 [("upload_url", JVal.str "u")])
    (HttpResponse.mk 200 [("id", JVal.str "t1")])
    (fun _ => HttpResponse.mk 502 [])

/-- Sample service behavior: upload returns 200 but without an `upload_url`
field. -/
def envMissingUrl : TranscribeEnv :=
  TranscribeEnv.mk (HttpResponse.mk 200 []) (HttpResponse.mk 200 [])
    (fun _ => HttpResponse.mk 200 [])

/-- Sample service behavior: job creation returns 200 but without an `id`
field. -/
def envMissingId : TranscribeEnv :=
  TranscribeEnv.mk (HttpResponse.mk 200 [("upload_url", JVal.str "u")])
    (HttpResponse.mk 200 []) (fun _ => HttpResponse.mk 200 [])

/-- Sample service behavior: the job immediately reports status `failed`. -/
def envPollFailed : TranscribeEnv :=
  TranscribeEnv.mk (HttpResponse.mk 200 [("upload_url", JVal.str "u")])
    (HttpResponse.mk 200 [("id", JVal.str "t1")])
    (fun _ => HttpResponse.mk 200 [("status", JVal.str "failed")])

/-- Sample service behavior: every status poll answers 200 with status
`processing`, forever. -/
def envProcessingForever : TranscribeEnv :=
  TranscribeEnv.mk (HttpResponse.mk 200 [("upload_url", JVal.str "u")])
    (HttpResponse.mk 200 [("id", JVal.str "t1")])
    (fun _ => HttpResponse.mk 200 [("status", JVal.str "processing")])

/-- Sample service behavior: the first poll reports `processing`, the second
reports `completed` with text "hi" — so the loop polls exactly twice. -/
def envTwoPolls : TranscribeEnv :=
  TranscribeEnv.mk (HttpResponse.mk 200 [("upload_url", JVal.str "u")])
    (HttpResponse.mk 200 [("id", JVal.str "t1")])
    (fun i =>
      if i = 0 then HttpResponse.mk 200 [("status", JVal.str "processing")]
      else HttpResponse.mk 200 [("status", JVal.str "completed"), ("text", JVal.str "hi")])

/-- Sample service behavior: the job completes but its `text` field is the
empty string. -/
def envEmptyText : TranscribeEnv :=
  TranscribeEnv.mk (HttpResponse.mk 200 [("upload_url", JVal.str "u")])
    (HttpResponse.mk 200 [("id", JVal.str "t1")])
    (fun _ => HttpResponse.mk 200 [("status", JVal.str "completed"), ("text", JVal.str "")])

/-- Sample refinement behavior: the model call raises. -/
def rEnvRaises : RefineEnv :=
  RefineEnv.mk (GroqOutcome.raises "boom") (fun _ => Except.error "e")

/-- Sample refinement behavior: the model returns a response that fails
schema validation. -/
def rEnvBadJson : RefineEnv :=
  RefineEnv.mk (GroqOutcome.returnsRaw "not json") (fun _ => Except.error "1 validation error")

/-- Sample refinement behavior: the model returns a response that validates
to `{ refined_transcription: "hi" }`. -/
def rEnvOk : RefineEnv :=
  RefineEnv.mk (GroqOutcome.returnsRaw "json ok")
    (fun _ => Except.ok (RefinedTranscription.mk "hi"))

/-- Sample audio decoder: a stereo 44.1 kHz mp3 segment, regardless of the
input bytes. -/
def decodeConst : List Nat → AudioSegment := fun _ => AudioSegment.mk 2 44100 "mp3"

/-- A trace member satisfying a shape predicate cannot be an event the
predicate excludes. -/
theorem notMem_of_shape {p : Event → Bool} {l : List Event}
    (hl : ∀ e ∈ l, p e = true) {x : Event} (hx : p x = false) : x ∉ l := by
  intro hmem
  rw [hl x hmem] at hx
  simp at hx

/-- Filtering by a predicate every shape-respecting event falsifies yields
the empty list. -/
theorem filter_shape_nil {p q : Event → Bool} {l : List Event}
    (hl : ∀ e ∈ l, p e = true) (hpq : ∀ e, p e = true → q e = false) :
    l.filter q = [] := by
  rw [List.filter_eq_nil_iff]
  intro e he
  rw [hpq e (hl e he)]
  simp

/-- Every event the polling loop performs is an HTTP request or an error
message. -/
theorem pollLoop_shape (env : TranscribeEnv) (tid : String) :
    ∀ fuel i e, e ∈ (pollLoop env tid i fuel).2 → netEvent e = true := by
  intro fuel
  induction fuel with
  | zero =>
    intro i e he
    simp [pollLoop] at he
  | succ n ih =>
    intro i e he
    simp only [pollLoop] at he
    split at he
    · simp at he
      rcases he with h | h <;> simp [h, netEvent]
    · split at he
      · simp at he
        simp [he, netEvent]
      · split at he
        · simp at he
          rcases he with h | h <;> simp [h, netEvent]
        · simp at he
          rcases he with h | h
          · simp [h, netEvent]
          · exact ih (i + 1) e h

/-- Every event `transcribe_audio` performs is an HTTP request or an error
message. -/
theorem transcribe_shape (env : TranscribeEnv) (fuel : Nat) :
    ∀ e ∈ (transcribe_audio env fuel).2, netEvent e = true := by
  intro e he
  simp only [transcribe_audio] at he
  split at he
  · simp at he
    rcases he with h | h <;> simp [h, netEvent]
  · split at he
    · simp at he
      rcases he with h | h <;> simp [h, netEvent]
    · split at he
      · simp at he
        rcases he with h | h | h <;> simp [h, netEvent]
      · split at he
        · simp at he
          rcases he with h | h | h <;> simp [h, netEvent]
        · simp at he
          rcases he with h | h | h
          · simp [h, netEvent]
          · simp [h, netEvent]
          · exact pollLoop_shape env _ fuel 0 e h

/-- Every event `refine_transcription_with_groq` performs is a UI write or
an error message. -/
theorem refine_shape (env : RefineEnv) (tx : String) :
    ∀ e ∈ (refine_transcription_with_groq env tx).2, refineEvent e = true := by
  intro e he
  simp only [refine_transcription_with_groq] at he
  split at he
  · simp at he
    simp [he, refineEvent]
  · split at he
    · simp at he
      rcases he with h | h <;> simp [h, refineEvent]
    · simp at he
      simp [he, refineEvent]

/-- Every event `translate_text` performs is an error message. -/
theorem translate_shape (tr : Except String String) (text : String) (lang : String) :
    ∀ e ∈ (translate_text tr text lang).2, refineEvent e = true := by
  intro e he
  cases tr with
  | error m =>
    simp [translate_text] at he
    simp [he, refineEvent]
  | ok t => simp [translate_text] at he

/-- The polling loop never terminates when every poll answers HTTP 200 with
a status that is neither `completed` nor `failed`; it issues one GET per
iteration of fuel. -/
theorem pollLoop_diverges (env : TranscribeEnv) (tid : String)
    (hpoll : ∀ i, (env.pollResponses i).statusCode = 200 ∧
      jget (env.pollResponses i).body "status" ≠ some (JVal.str "completed") ∧
      jget (env.pollResponses i).body "status" ≠ some (JVal.str "failed")) :
    ∀ fuel i, (pollLoop env tid i fuel).1 = Outcome.diverge ∧
      (List.filter isGet (pollLoop env tid i fuel).2).length = fuel := by
  intro fuel
  induction fuel with
  | zero => intro i; simp [pollLoop]
  | succ n ih =>
    intro i
    obtain ⟨h200, hc, hf⟩ := hpoll i
    simp only [pollLoop]
    rw [if_neg (by simp [h200]), if_neg hc, if_neg hf]
    constructor
    · exact (ih (i + 1)).1
    · simp [isGet, (ih (i + 1)).2]

/-- C1: on any non-200 HTTP response — at upload, at job creation, or at any
status poll — `transcribe_audio` reports the numeric status code via an
error message, returns `None`, and issues no further request: the trace ends
at the failing request. -/
theorem C1_nonsuccess_http_aborts (env : TranscribeEnv) (fuel : Nat) :
    (env.uploadResponse.statusCode ≠ 200 →
      transcribe_audio env fuel =
        (Outcome.ret none,
         [Event.httpPost "https://api.assemblyai.com/v2/upload",
          Event.stError ("Failed to upload audio. Status: " ++
            toString env.uploadResponse.statusCode)])) ∧
    (env.uploadResponse.statusCode = 200 →
      pyTruthy (jget env.uploadResponse.body "upload_url") = true →
      env.createResponse.statusCode ≠ 200 →
      transcribe_audio env fuel =
        (Outcome.ret none,
         [Event.httpPost "https://api.assemblyai.com/v2/upload",
          Event.httpPost ASSEMBLYAI_ENDPOINT,
          Event.stError ("Failed to request transcription. Status: " ++
            toString env.createResponse.statusCode)])) ∧
    (∀ tid i, (env.pollResponses i).statusCode ≠ 200 →
      pollLoop env tid i (fuel + 1) =
        (Outcome.ret none,
         [Event.httpGet (ASSEMBLYAI_ENDPOINT ++ "/" ++ tid),
          Event.stError ("Failed to fetch transcription result. Status: " ++
            toString (env.pollResponses i).statusCode)])) := by
  refine ⟨?_, ?_, ?_⟩
  · intro h
    simp [transcribe_audio, h]
  · intro h1 h2 h3
    simp [transcribe_audio, h1, h2, h3]
  · intro tid i h
    simp [pollLoop, h]

/-- C1 witness: three concrete service behaviors — upload rejected with 500,
creation rejected with 403, first poll rejected with 502 — each abort with
the status code reported and no further request. -/
theorem C1_nonsuccess_http_aborts_witness :
    transcribe_audio envUploadFail 1 =
      (Outcome.ret none,
       [Event.httpPost "https://api.assemblyai.com/v2/upload",
        Event.stError ("Failed to upload audio. Status: " ++ toString (500 : Nat))]) ∧
    transcribe_audio envCreateFail 1 =
      (Outcome.ret none,
       [Event.httpPost "https://api.assemblyai.com/v2/upload",
        Event.httpPost ASSEMBLYAI_ENDPOINT,
        Event.stError ("Failed to request transcription. Status: " ++ toString (403 : Nat))]) ∧
    pollLoop envPollHttpFail "t1" 0 1 =
      (Outcome.ret none,
       [Event.httpGet (ASSEMBLYAI_ENDPOINT ++ "/" ++ "t1"),
        Event.stError ("Failed to fetch transcription result. Status: " ++ toString (502 : Nat))]) :=
  ⟨(C1_nonsuccess_http_aborts envUploadFail 1).1 (by decide),
   (C1_nonsuccess_http_aborts envCreateFail 1).2.1 rfl (by decide) (by decide),
   (C1_nonsuccess_http_aborts envPollHttpFail 0).2.2 "t1" 0 (by decide)⟩

/-- C4: whenever a status poll answers 200 with status `failed`, the loop
stops at once — one GET, the error message "Transcription failed.", and a
`None` return; lifted to `transcribe_audio` when the first poll reports
`failed`. -/
theorem C4_failed_status_aborts (env : TranscribeEnv) (fuel : Nat) :
    (∀ tid i, (env.pollResponses i).statusCode = 200 →
      jget (env.pollResponses i).body "status" = some (JVal.str "failed") →
      pollLoop env tid i (fuel + 1) =
        (Outcome.ret none,
         [Event.httpGet (ASSEMBLYAI_ENDPOINT ++ "/" ++ tid),
          Event.stError "Transcription failed."])) ∧
    (env.uploadResponse.statusCode = 200 →
      pyTruthy (jget env.uploadResponse.body "upload_url") = true →
      env.createResponse.statusCode = 200 →
      pyTruthy (jget env.createResponse.body "id") = true →
      (env.pollResponses 0).statusCode = 200 →
      jget (env.pollResponses 0).body "status" = some (JVal.str "failed") →
      transcribe_audio env (fuel + 1) =
        (Outcome.ret none,
         [Event.httpPost "https://api.assemblyai.com/v2/upload",
          Event.httpPost ASSEMBLYAI_ENDPOINT,
          Event.httpGet (ASSEMBLYAI_ENDPOINT ++ "/" ++
            jstr (jget env.createResponse.body "id")),
          Event.stError "Transcription failed."])) := by
  constructor
  · intro tid i h200 hst
    simp [pollLoop, h200, hst]
  · intro h1 h2 h3 h4 h5 h6
    simp [transcribe_audio, pollLoop, h1, h2, h3, h4, h5, h6]

/-- C4 witness: with a service whose first poll reports status `failed`, the
run issues upload, creation, a single GET, reports "Transcription failed.",
and returns `None`. -/
theorem C4_failed_status_aborts_witness :
    transcribe_audio envPollFailed 1 =
      (Outcome.ret none,
       [Event.httpPost "https://api.assemblyai.com/v2/upload",
        Event.httpPost ASSEMBLYAI_ENDPOINT,
        Event.httpGet (ASSEMBLYAI_ENDPOINT ++ "/" ++ "t1"),
        Event.stError "Transcription failed."]) :=
  (C4_failed_status_aborts envPollFailed 0).2 rfl (by decide) rfl (by decide) rfl (by decide)

/-- C9: even with every HTTP response at 200, a missing `upload_url` field
in the upload response, or a missing `id` field in the job-creation
response, aborts `transcribe_audio` with an error and a `None` return, and
no status poll (no GET) is ever issued. -/
theorem C9_missing_fields_abort (env : TranscribeEnv) (fuel : Nat) :
    (env.uploadResponse.statusCode = 200 →
      jget env.uploadResponse.body "upload_url" = none →
      transcribe_audio env fuel =
        (Outcome.ret none,
         [Event.httpPost "https://api.assemblyai.com/v2/upload",
          Event.stError "Upload URL not received from AssemblyAI."]) ∧
      List.filter isGet (transcribe_audio env fuel).2 = []) ∧
    (env.uploadResponse.statusCode = 200 →
      pyTruthy (jget env.uploadResponse.body "upload_url") = true →
      env.createResponse.statusCode = 200 →
      jget env.createResponse.body "id" = none →
      transcribe_audio env fuel =
        (Outcome.ret none,
         [Event.httpPost "https://api.assemblyai.com/v2/upload",
          Event.httpPost ASSEMBLYAI_ENDPOINT,
          Event.stError "Transcription ID not received."]) ∧
      List.filter isGet (transcribe_audio env fuel).2 = []) := by
  constructor
  · intro h1 h2
    have heq : transcribe_audio env fuel =
        (Outcome.ret none,
         [Event.httpPost "https://api.assemblyai.com/v2/upload",
          Event.stError "Upload URL not received from AssemblyAI."]) := by
      simp [transcribe_audio, h1, h2, pyTruthy]
    refine ⟨heq, ?_⟩
    rw [heq]
    simp [isGet]
  · intro h1 h2 h3 h4
    have h4' : pyTruthy (jget env.createResponse.body "id") = false := by
      rw [h4]
      rfl
    have heq : transcribe_audio env fuel =
        (Outcome.ret none,
         [Event.httpPost "https://api.assemblyai.com/v2/upload",
          Event.httpPost ASSEMBLYAI_ENDPOINT,
          Event.stError "Transcription ID not received."]) := by
      simp [transcribe_audio, h1, h2, h3, h4']
    refine ⟨heq, ?_⟩
    rw [heq]
    simp [isGet]

/-- C9 witness: concrete 200-responses lacking `upload_url` (resp. `id`)
abort before any poll. -/
theorem C9_missing_fields_abort_witness :
    (transcribe_audio envMissingUrl 1 =
      (Outcome.ret none,
       [Event.httpPost "https://api.assemblyai.com/v2/upload",
        Event.stError "Upload URL not received from AssemblyAI."]) ∧
     List.filter isGet (transcribe_audio envMissingUrl 1).2 = []) ∧
    (transcribe_audio envMissingId 1 =
      (Outcome.ret none,
       [Event.httpPost "https://api.assemblyai.com/v2/upload",
        Event.httpPost ASSEMBLYAI_ENDPOINT,
        Event.stError "Transcription ID not received."]) ∧
     List.filter isGet (transcribe_audio envMissingId 1).2 = []) :=
  ⟨(C9_missing_fields_abort envMissingUrl 1).1 rfl (by decide),
   (C9_missing_fields_abort envMissingId 1).2 rfl (by decide) rfl (by decide)⟩

/-- C5: the polling loop has no retry bound and no timeout. If upload and
job creation succeed and every status poll answers HTTP 200 with a status
that is never `completed` nor `failed`, then for every fuel bound the run
fails to terminate (outcome `diverge`), having issued exactly one GET per
unit of fuel — i.e. `transcribe_audio` polls forever. -/
theorem C5_polling_unbounded (env : TranscribeEnv)
    (h1 : env.uploadResponse.statusCode = 200)
    (h2 : pyTruthy (jget env.uploadResponse.body "upload_url") = true)
    (h3 : env.createResponse.statusCode = 200)
    (h4 : pyTruthy (jget env.createResponse.body "id") = true)
    (hpoll : ∀ i, (env.pollResponses i).statusCode = 200 ∧
      jget (env.pollResponses i).body "status" ≠ some (JVal.str "completed") ∧
      jget (env.pollResponses i).body "status" ≠ some (JVal.str "failed")) :
    ∀ fuel, (transcribe_audio env fuel).1 = Outcome.diverge ∧
      (List.filter isGet (transcribe_audio env fuel).2).length = fuel := by
  intro fuel
  have hp := pollLoop_diverges env (jstr (jget env.createResponse.body "id")) hpoll fuel 0
  have heq : transcribe_audio env fuel =
      ((pollLoop env (jstr (jget env.createResponse.body "id")) 0 fuel).1,
       Event.httpPost "https://api.assemblyai.com/v2/upload" ::
       Event.httpPost ASSEMBLYAI_ENDPOINT ::
       (pollLoop env (jstr (jget env.createResponse.body "id")) 0 fuel).2) := by
    simp [transcribe_audio, h1, h2, h3, h4]
  rw [heq]
  exact ⟨hp.1, by simp [isGet, hp.2]⟩

/-- C5 witness: with every poll answering 200/`processing`, a fuel bound of
3 is exhausted with 3 polls issued and no return. -/
theorem C5_polling_unbounded_witness :
    (transcribe_audio envProcessingForever 3).1 = Outcome.diverge ∧
    (List.filter isGet (transcribe_audio envProcessingForever 3).2).length = 3 := by
  refine C5_polling_unbounded envProcessingForever rfl (by decide) rfl (by decide) ?_ 3
  intro i
  refine ⟨rfl, ?_, ?_⟩ <;> simp [envProcessingForever, jget]

/-- C8 counterexample: a run in which the job is still `processing` at the
first poll and `completed` at the second issues its two status polls back to
back — the trace contains no sleep between consecutive GETs, refuting the
claim that consecutive polls are separated by a sleep. -/
theorem C8_counterexample_no_sleep :
    (List.filter isGet (transcribe_audio envTwoPolls 3).2).length = 2 ∧
    sleepBetweenPolls (transcribe_audio envTwoPolls 3).2 = false := by
  constructor
  · rfl
  · rfl

/-- C8 (amended): the transcription client never sleeps at all — no run of
`transcribe_audio`, whatever the service responses and however many polls
occur, performs a sleep event; consecutive status polls are issued back to
back. -/
theorem C8_no_sleep_in_polling (env : TranscribeEnv) (fuel : Nat) :
    Event.sleep ∉ (transcribe_audio env fuel).2 := by
  intro hmem
  have h := transcribe_shape env fuel Event.sleep hmem
  simp [netEvent] at h

/-- C6: for every input byte sequence (and whatever segment the audio
library decodes it to), `preprocess_audio` returns audio exported in WAV
format with exactly one channel and a 16 kHz sample rate. -/
theorem C6_preprocess_mono_16k_wav (decode : List Nat → AudioSegment)
    (audio_data : List Nat) :
    (preprocess_audio decode audio_data).1.channels = 1 ∧
    (preprocess_audio decode audio_data).1.frame_rate = 16000 ∧
    (preprocess_audio decode audio_data).1.fmt = "wav" :=
  ⟨rfl, rfl, rfl⟩

/-- C3: if the model call raises, or the raw response fails validation
against the schema `{ refined_transcription: string }`,
`refine_transcription_with_groq` surfaces an error carrying the underlying
error text and returns `None` — the full return value and trace are given,
so there is no partial output, no retry, and no fallback to the input
transcript. -/
theorem C3_refinement_rejects_invalid (rEnv : RefineEnv) (transcription : String) :
    (∀ m, rEnv.chat = GroqOutcome.raises m →
      refine_transcription_with_groq rEnv transcription =
        (none, [Event.stError ("An error occurred during refinement with Groq: " ++ m)])) ∧
    (∀ raw m, rEnv.chat = GroqOutcome.returnsRaw raw →
      rEnv.validate raw = Except.error m →
      refine_transcription_with_groq rEnv transcription =
        (none,
         [Event.stWrite2 "Raw Response from Groq:" raw,
          Event.stError ("An error occurred during refinement with Groq: " ++ m)])) := by
  constructor
  · intro m h
    simp [refine_transcription_with_groq, h]
  · intro raw m h1 h2
    simp [refine_transcription_with_groq, h1, h2]

/-- C3 witness: a raising model call and a schema-invalid response both
yield `None` with the underlying error text reported. -/
theorem C3_refinement_rejects_invalid_witness :
    refine_transcription_with_groq rEnvRaises "hello" =
      (none, [Event.stError ("An error occurred during refinement with Groq: " ++ "boom")]) ∧
    refine_transcription_with_groq rEnvBadJson "hello" =
      (none,
       [Event.stWrite2 "Raw Response from Groq:" "not json",
        Event.stError ("An error occurred during refinement with Groq: " ++ "1 validation error")]) :=
  ⟨(C3_refinement_rejects_invalid rEnvRaises "hello").1 "boom" rfl,
   (C3_refinement_rejects_invalid rEnvBadJson "hello").2 "not json" "1 validation error" rfl rfl⟩

/-- `preprocess_audio` shows no UI info message. -/
theorem preprocess_no_stInfo (decode : List Nat → AudioSegment) (d : List Nat) (m : String) :
    Event.stInfo m ∉ (preprocess_audio decode d).2 := by
  simp [preprocess_audio]

/-- `preprocess_audio` performs no speech synthesis. -/
theorem preprocess_no_ttsSave (decode : List Nat → AudioSegment) (d : List Nat) (p : String) :
    Event.ttsSave p ∉ (preprocess_audio decode d).2 := by
  simp [preprocess_audio]

/-- `preprocess_audio` deletes no file. -/
theorem preprocess_filter_remove (decode : List Nat → AudioSegment) (d : List Nat) :
    List.filter isRemove (preprocess_audio decode d).2 = [] := by
  simp [preprocess_audio, isRemove]

/-- `transcribe_audio` shows no UI info message. -/
theorem transcribe_no_stInfo (env : TranscribeEnv) (fuel : Nat) (m : String) :
    Event.stInfo m ∉ (transcribe_audio env fuel).2 :=
  notMem_of_shape (transcribe_shape env fuel) rfl

/-- `transcribe_audio` performs no speech synthesis. -/
theorem transcribe_no_ttsSave (env : TranscribeEnv) (fuel : Nat) (p : String) :
    Event.ttsSave p ∉ (transcribe_audio env fuel).2 :=
  notMem_of_shape (transcribe_shape env fuel) rfl

/-- `refine_transcription_with_groq` shows no UI info message. -/
theorem refine_no_stInfo (env : RefineEnv) (tx : String) (m : String) :
    Event.stInfo m ∉ (refine_transcription_with_groq env tx).2 :=
  notMem_of_shape (refine_shape env tx) rfl

/-- `refine_transcription_with_groq` performs no speech synthesis. -/
theorem refine_no_ttsSave (env : RefineEnv) (tx : String) (p : String) :
    Event.ttsSave p ∉ (refine_transcription_with_groq env tx).2 :=
  notMem_of_shape (refine_shape env tx) rfl

/-- Network-shaped events are not file deletions. -/
theorem netEvent_not_remove : ∀ e, netEvent e = true → isRemove e = false := by
  intro e he
  cases e <;> first | rfl | simp [netEvent] at he

/-- Refinement-shaped events are not file deletions. -/
theorem refineEvent_not_remove : ∀ e, refineEvent e = true → isRemove e = false := by
  intro e he
  cases e <;> first | rfl | simp [refineEvent] at he

/-- `transcribe_audio` deletes no file. -/
theorem transcribe_filter_remove (env : TranscribeEnv) (fuel : Nat) :
    List.filter isRemove (transcribe_audio env fuel).2 = [] :=
  filter_shape_nil (transcribe_shape env fuel) netEvent_not_remove

/-- `refine_transcription_with_groq` deletes no file. -/
theorem refine_filter_remove (env : RefineEnv) (tx : String) :
    List.filter isRemove (refine_transcription_with_groq env tx).2 = [] :=
  filter_shape_nil (refine_shape env tx) refineEvent_not_remove

/-- C2: a failed stage stops the pipeline. If transcription returns `None`,
"Transcription failed." is shown and the refinement, translation, and
synthesis stages are never entered; if refinement returns `None`,
"Refinement failed." is shown and translation and synthesis are never
entered; if translation raises, its error is shown and synthesis is never
entered. -/
theorem C2_stage_failure_stops (decode : List Nat → AudioSegment) (audio_data : List Nat)
    (tEnv : TranscribeEnv) (rEnv : RefineEnv) (tr : Except String String)
    (lang : String) (fuel : Nat) :
    ((transcribe_audio tEnv fuel).1 = Outcome.ret none →
      Event.stError "Transcription failed." ∈ runPipeline decode audio_data tEnv rEnv tr lang fuel ∧
      Event.stInfo "Refining transcription with Groq..." ∉ runPipeline decode audio_data tEnv rEnv tr lang fuel ∧
      Event.stInfo "Translating refined transcription..." ∉ runPipeline decode audio_data tEnv rEnv tr lang fuel ∧
      Event.stInfo "Converting translation to speech..." ∉ runPipeline decode audio_data tEnv rEnv tr lang fuel) ∧
    (∀ tx, tx ≠ "" → (transcribe_audio tEnv fuel).1 = Outcome.ret (some tx) →
      (refine_transcription_with_groq rEnv tx).1 = none →
      Event.stError "Refinement failed." ∈ runPipeline decode audio_data tEnv rEnv tr lang fuel ∧
      Event.stInfo "Translating refined transcription..." ∉ runPipeline decode audio_data tEnv rEnv tr lang fuel ∧
      Event.stInfo "Converting translation to speech..." ∉ runPipeline decode audio_data tEnv rEnv tr lang fuel) ∧
    (∀ tx r e, tx ≠ "" → (transcribe_audio tEnv fuel).1 = Outcome.ret (some tx) →
      (refine_transcription_with_groq rEnv tx).1 = some r →
      tr = Except.error e →
      Event.stError ("An error occurred during translation: " ++ e) ∈ runPipeline decode audio_data tEnv rEnv tr lang fuel ∧
      Event.stInfo "Converting translation to speech..." ∉ runPipeline decode audio_data tEnv rEnv tr lang fuel ∧
      Event.ttsSave "output.mp3" ∉ runPipeline decode audio_data tEnv rEnv tr lang fuel) := by
  refine ⟨?_, ?_, ?_⟩
  · intro h
    have hrw : runPipeline decode audio_data tEnv rEnv tr lang fuel =
        Event.stInfo "Processing audio..." ::
        (preprocess_audio decode audio_data).2 ++
        Event.stInfo "Transcribing audio..." ::
        (transcribe_audio tEnv fuel).2 ++
        [Event.stError "Transcription failed."] := by
      simp [runPipeline, h, pyTruthyStr]
    rw [hrw]
    refine ⟨by simp, ?_, ?_, ?_⟩ <;>
      simp [preprocess_no_stInfo, transcribe_no_stInfo]
  · intro tx htx h1 h2
    have hrw : runPipeline decode audio_data tEnv rEnv tr lang fuel =
        Event.stInfo "Processing audio..." ::
        (preprocess_audio decode audio_data).2 ++
        Event.stInfo "Transcribing audio..." ::
        (transcribe_audio tEnv fuel).2 ++
        (Event.stWrite "**Original Transcription:**" ::
         Event.stWrite tx ::
         Event.stWrite "**Refined Transcription for Medical Terms through Generative AI:**" ::
         Event.stInfo "Refining transcription with Groq..." ::
         (refine_transcription_with_groq rEnv tx).2 ++
         [Event.stError "Refinement failed."]) := by
      simp [runPipeline, h1, pyTruthyStr, htx, refinePart, h2]
    rw [hrw]
    refine ⟨by simp, ?_, ?_⟩ <;>
      simp [preprocess_no_stInfo, transcribe_no_stInfo, refine_no_stInfo]
  · intro tx r e htx h1 h2 h3
    subst h3
    have hrw : runPipeline decode audio_data tEnv rEnv (Except.error e) lang fuel =
        Event.stInfo "Processing audio..." ::
        (preprocess_audio decode audio_data).2 ++
        Event.stInfo "Transcribing audio..." ::
        (transcribe_audio tEnv fuel).2 ++
        (Event.stWrite "**Original Transcription:**" ::
         Event.stWrite tx ::
         Event.stWrite "**Refined Transcription for Medical Terms through Generative AI:**" ::
         Event.stInfo "Refining transcription with Groq..." ::
         (refine_transcription_with_groq rEnv tx).2 ++
         (Event.stWrite "**Refined Transcription:**" ::
          Event.stJson r ::
          Event.stInfo "Translating refined transcription..." ::
          [Event.stError ("An error occurred during translation: " ++ e)])) := by
      simp [runPipeline, h1, pyTruthyStr, htx, refinePart, h2, translatePart, translate_text]
    rw [hrw]
    refine ⟨by simp, ?_, ?_⟩ <;>
      simp [preprocess_no_stInfo, transcribe_no_stInfo, refine_no_stInfo,
        preprocess_no_ttsSave, transcribe_no_ttsSave, refine_no_ttsSave]

/-- C2 witness: concrete runs — an upload rejected with 500 stops before
refinement; a raising model call stops before translation; a raising
translator stops before synthesis. -/
theorem C2_stage_failure_stops_witness :
    (Event.stError "Transcription failed." ∈
       runPipeline decodeConst [0] envUploadFail rEnvOk (Except.ok "x") "fr" 1 ∧
     Event.stInfo "Refining transcription with Groq..." ∉
       runPipeline decodeConst [0] envUploadFail rEnvOk (Except.ok "x") "fr" 1 ∧
     Event.stInfo "Translating refined transcription..." ∉
       runPipeline decodeConst [0] envUploadFail rEnvOk (Except.ok "x") "fr" 1 ∧
     Event.stInfo "Converting translation to speech..." ∉
       runPipeline decodeConst [0] envUploadFail rEnvOk (Except.ok "x") "fr" 1) ∧
    (Event.stError "Refinement failed." ∈
       runPipeline decodeConst [0] envTwoPolls rEnvRaises (Except.ok "x") "fr" 3 ∧
     Event.stInfo "Translating refined transcription..." ∉
       runPipeline decodeConst [0] envTwoPolls rEnvRaises (Except.ok "x") "fr" 3 ∧
     Event.stInfo "Converting translation to speech..." ∉
       runPipeline decodeConst [0] envTwoPolls rEnvRaises (Except.ok "x") "fr" 3) ∧
    (Event.stError ("An error occurred during translation: " ++ "quota") ∈
       runPipeline decodeConst [0] envTwoPolls rEnvOk (Except.error "quota") "fr" 3 ∧
     Event.stInfo "Converting translation to speech..." ∉
       runPipeline decodeConst [0] envTwoPolls rEnvOk (Except.error "quota") "fr" 3 ∧
     Event.ttsSave "output.mp3" ∉
       runPipeline decodeConst [0] envTwoPolls rEnvOk (Except.error "quota") "fr" 3) :=
  ⟨(C2_stage_failure_stops decodeConst [0] envUploadFail rEnvOk (Except.ok "x") "fr" 1).1 rfl,
   (C2_stage_failure_stops decodeConst [0] envTwoPolls rEnvRaises (Except.ok "x") "fr" 3).2.1
     "hi" (by decide) rfl rfl,
   (C2_stage_failure_stops decodeConst [0] envTwoPolls rEnvOk (Except.error "quota") "fr" 3).2.2
     "hi" (RefinedTranscription.mk "hi") "quota" (by decide) rfl rfl rfl⟩

/-- C10: if the job completes but its `text` field is JSON null, the empty
string, or missing, `main` behaves exactly as on a transcription failure:
it shows "Transcription failed." and never enters refinement, translation,
or synthesis. -/
theorem C10_empty_completed_text_fails (decode : List Nat → AudioSegment)
    (audio_data : List Nat) (tEnv : TranscribeEnv) (rEnv : RefineEnv)
    (tr : Except String String) (lang : String) (fuel : Nat)
    (h1 : tEnv.uploadResponse.statusCode = 200)
    (h2 : pyTruthy (jget tEnv.uploadResponse.body "upload_url") = true)
    (h3 : tEnv.createResponse.statusCode = 200)
    (h4 : pyTruthy (jget tEnv.createResponse.body "id") = true)
    (h5 : (tEnv.pollResponses 0).statusCode = 200)
    (h6 : jget (tEnv.pollResponses 0).body "status" = some (JVal.str "completed"))
    (h7 : jget (tEnv.pollResponses 0).body "text" = some JVal.null ∨
          jget (tEnv.pollResponses 0).body "text" = some (JVal.str "") ∨
          jget (tEnv.pollResponses 0).body "text" = none) :
    Event.stError "Transcription failed." ∈
      runPipeline decode audio_data tEnv rEnv tr lang (fuel + 1) ∧
    Event.stInfo "Refining transcription with Groq..." ∉
      runPipeline decode audio_data tEnv rEnv tr lang (fuel + 1) ∧
    Event.stInfo "Translating refined transcription..." ∉
      runPipeline decode audio_data tEnv rEnv tr lang (fuel + 1) ∧
    Event.stInfo "Converting translation to speech..." ∉
      runPipeline decode audio_data tEnv rEnv tr lang (fuel + 1) := by
  have ht : transcribe_audio tEnv (fuel + 1) =
      (Outcome.ret (jtext (jget (tEnv.pollResponses 0).body "text")),
       [Event.httpPost "https://api.assemblyai.com/v2/upload",
        Event.httpPost ASSEMBLYAI_ENDPOINT,
        Event.httpGet (ASSEMBLYAI_ENDPOINT ++ "/" ++
          jstr (jget tEnv.createResponse.body "id"))]) := by
    simp [transcribe_audio, pollLoop, h1, h2, h3, h4, h5, h6]
  have h1' : (transcribe_audio tEnv (fuel + 1)).1 =
      Outcome.ret (jtext (jget (tEnv.pollResponses 0).body "text")) := by
    rw [ht]
  have hfalse : pyTruthyStr (jtext (jget (tEnv.pollResponses 0).body "text")) = false := by
    rcases h7 with h | h | h <;> simp [h, jtext, pyTruthyStr]
  have hrw : runPipeline decode audio_data tEnv rEnv tr lang (fuel + 1) =
      Event.stInfo "Processing audio..." ::
      (preprocess_audio decode audio_data).2 ++
      Event.stInfo "Transcribing audio..." ::
      (transcribe_audio tEnv (fuel + 1)).2 ++
      [Event.stError "Transcription failed."] := by
    simp [runPipeline, h1', hfalse]
  rw [hrw]
  refine ⟨by simp, ?_, ?_, ?_⟩ <;>
    simp [preprocess_no_stInfo, transcribe_no_stInfo]

/-- C10 witness: a job that completes with `text` equal to the empty string
makes the pipeline report "Transcription failed." and stop. -/
theorem C10_empty_completed_text_fails_witness :
    Event.stError "Transcription failed." ∈
      runPipeline decodeConst [0] envEmptyText rEnvOk (Except.ok "x") "fr" 1 ∧
    Event.stInfo "Refining transcription with Groq..." ∉
      runPipeline decodeConst [0] envEmptyText rEnvOk (Except.ok "x") "fr" 1 ∧
    Event.stInfo "Translating refined transcription..." ∉
      runPipeline decodeConst [0] envEmptyText rEnvOk (Except.ok "x") "fr" 1 ∧
    Event.stInfo "Converting translation to speech..." ∉
      runPipeline decodeConst [0] envEmptyText rEnvOk (Except.ok "x") "fr" 1 :=
  C10_empty_completed_text_fails decodeConst [0] envEmptyText rEnvOk (Except.ok "x") "fr" 0
    rfl (by decide) rfl (by decide) rfl (by decide) (Or.inr (Or.inl (by decide)))

/-- C7: on a fully successful run (transcription, refinement, and a
non-empty — hence Python-truthy — translation), synthesis first saves
compressed audio (`output.mp3`), then re-encodes to uncompressed
`output.wav`, delivers it for playback, and only then deletes both
artifacts — the trace ends with exactly that sequence, and those two
deletions are the only file removals of the entire run. -/
theorem C7_synthesis_cleanup (decode : List Nat → AudioSegment) (audio_data : List Nat)
    (tEnv : TranscribeEnv) (rEnv : RefineEnv) (lang : String) (fuel : Nat)
    (tx t : String) (r : RefinedTranscription)
    (htx : tx ≠ "") (ht : t ≠ "")
    (h1 : (transcribe_audio tEnv fuel).1 = Outcome.ret (some tx))
    (h2 : (refine_transcription_with_groq rEnv tx).1 = some r) :
    (∃ pre, runPipeline decode audio_data tEnv rEnv (Except.ok t) lang fuel =
      pre ++
      [Event.ttsSave "output.mp3",
       Event.fileRead "output.mp3",
       Event.audioExport "output.wav" "wav",
       Event.stAudio "output.wav",
       Event.fileRemove "output.mp3",
       Event.fileRemove "output.wav"]) ∧
    List.filter isRemove (runPipeline decode audio_data tEnv rEnv (Except.ok t) lang fuel) =
      [Event.fileRemove "output.mp3", Event.fileRemove "output.wav"] := by
  have hrw : runPipeline decode audio_data tEnv rEnv (Except.ok t) lang fuel =
      (Event.stInfo "Processing audio..." ::
       (preprocess_audio decode audio_data).2 ++
       Event.stInfo "Transcribing audio..." ::
       (transcribe_audio tEnv fuel).2 ++
       Event.stWrite "**Original Transcription:**" ::
       Event.stWrite tx ::
       Event.stWrite "**Refined Transcription for Medical Terms through Generative AI:**" ::
       Event.stInfo "Refining transcription with Groq..." ::
       (refine_transcription_with_groq rEnv tx).2 ++
       Event.stWrite "**Refined Transcription:**" ::
       Event.stJson r ::
       Event.stInfo "Translating refined transcription..." ::
       Event.stWrite ("**Translation (" ++ lang ++ "):**") ::
       Event.stWrite t ::
       [Event.stInfo "Converting translation to speech..."]) ++
      [Event.ttsSave "output.mp3",
       Event.fileRead "output.mp3",
       Event.audioExport "output.wav" "wav",
       Event.stAudio "output.wav",
       Event.fileRemove "output.mp3",
       Event.fileRemove "output.wav"] := by
    simp [runPipeline, refinePart, translatePart, synthPart, translate_text,
      text_to_speech, h1, pyTruthyStr, htx, ht, h2]
  constructor
  · exact ⟨_, hrw⟩
  · rw [hrw]
    simp [List.filter_append, isRemove, preprocess_filter_remove,
      transcribe_filter_remove, refine_filter_remove]

/-- C7 witness: a concrete fully successful run (two polls, transcript "hi",
refinement ok, translation "bonjour") ends with mp3 synthesis, wav export,
playback, and exactly the two artifact deletions. -/
theorem C7_synthesis_cleanup_witness :
    (∃ pre, runPipeline decodeConst [0] envTwoPolls rEnvOk (Except.ok "bonjour") "fr" 3 =
      pre ++
      [Event.ttsSave "output.mp3",
       Event.fileRead "output.mp3",
       Event.audioExport "output.wav" "wav",
       Event.stAudio "output.wav",
       Event.fileRemove "output.mp3",
       Event.fileRemove "output.wav"]) ∧
    List.filter isRemove (runPipeline decodeConst [0] envTwoPolls rEnvOk (Except.ok "bonjour") "fr" 3) =
      [Event.fileRemove "output.mp3", Event.fileRemove "output.wav"] :=
  C7_synthesis_cleanup decodeConst [0] envTwoPolls rEnvOk "fr" 3 "hi" "bonjour"
    (RefinedTranscription.mk "hi") (by decide) (by decide) rfl rfl
